import Mathlib

/-!
Verification development for the newsletter batch job (newsletter.py).

The program is a single linear pipeline: for each configured topic it fetches
articles from a news API, summarizes each article with an LLM API, accumulates
an HTML body by string concatenation, and finally sends one email over SMTP.

We give a shallow embedding. External effects are modelled by oracles passed
as arguments: the HTTP GET outcome, the LLM completion outcome per payload,
and the SMTP session outcome. Logging is modelled, where a claim needs it, as
the list of printed lines. All functions are total, which models the fact
that the Python functions catch their exceptions internally.
-/

namespace Newsletter

/-- Article record as decoded from the news API JSON. Each field is optional:
none models a key that is absent from the article object. -/
structure Article where
  title : Option String
  url : Option String
  content : Option String
  description : Option String
deriving Repr, DecidableEq

/-- Python truthiness of an optional string: None and the empty string are
falsy, every other string is truthy. -/
def optTruthy : Option String → Bool
  | none => false
  | some s => !s.isEmpty

/-- Outcome of the HTTP GET issued by fetch_articles: a connection-level
error raised by requests.get, a non-success HTTP status that makes
raise_for_status raise, or a decoded JSON body whose articles field is
present (some) or absent (none). -/
inductive HttpResponse where
  | connectionError (e : String)
  | statusError (code : Nat)
  | success (articles : Option (List Article))
deriving Repr, DecidableEq

/-- Transport-level failure of the request: connection error or non-success
HTTP status. Both raise a requests.exceptions.RequestException in the code. -/
def isTransportFailure : HttpResponse → Prop
  | .connectionError _ => True
  | .statusError _ => True
  | .success _ => False

/-- Embedding of fetch_articles from newsletter.py, lines 30 to 54. The
try block is modelled by matching on the HTTP outcome: both exception cases
land in the except handler which returns the empty list; on success the code
returns data.get("articles", []), that is, the articles field or []. -/
def fetch_articles (topic : String) (num_articles : Nat) (resp : HttpResponse) : List Article :=
  match resp with
  | .connectionError _ => []
  | .statusError _ => []
  | .success arts => arts.getD []

/-- Outcome of the LLM chat-completion call: the call raised an exception, or
it returned a response whose choices carry these message contents. -/
inductive ApiResult where
  | raised (e : String)
  | completed (choices : List String)
deriving Repr, DecidableEq

/-- Embedding of summarize_article from newsletter.py, lines 59 to 82. The
result pairs the returned string with the list of payloads sent to the LLM
API (the user-role content of each issued request), so that absence of a
network call is visible as an empty list. A response with no choices makes
response.choices[0] raise, which the broad except handler also absorbs. -/
def summarize_article (api : String → ApiResult) (article_content : Option String) : String × List String :=
  match article_content with
  | none => ("No content provided to summarize.", [])
  | some s =>
    if s.isEmpty then ("No content provided to summarize.", [])
    else
      match api s with
      | .raised _ => ("Could not summarize this article.", [s])
      | .completed [] => ("Could not summarize this article.", [s])
      | .completed (t :: _) => (t.trim, [s])

/-- Outcome of the SMTP session opened by send_email: full success, an
smtplib.SMTPAuthenticationError raised by server.login, or any other
exception raised during the session. -/
inductive SmtpResult where
  | ok
  | authFailure
  | otherFailure (e : String)
deriving Repr, DecidableEq

/-- First line printed by the dedicated SMTPAuthenticationError handler. -/
def authBanner : String := "---!!! AUTHENTICATION FAILED !!!---"

/-- Second line printed by the dedicated SMTPAuthenticationError handler. -/
def authDetail : String := "Error: SMTP Authentication failed. Check your SENDER_EMAIL and SENDER_PASSWORD (App Password) in the .env file."

/-- Embedding of send_email from newsletter.py, lines 87 to 120, as the list
of lines it prints. The function is total: every SMTP outcome, including both
exception cases, produces a log and returns to the caller. -/
def send_email (subject html_content receiver : String) (smtp : SmtpResult) : List String :=
  ("Connecting to email server to send to " ++ receiver ++ "...") ::
    match smtp with
    | .ok => ["Email sent successfully!"]
    | .authFailure => [authBanner, authDetail]
    | .otherFailure e => ["Error sending email: " ++ e]

/-- Fixed header that initializes email_body in main (line 136). -/
def header : String := "<h1>Your AI-Powered News Briefing</h1><p>Here are the top stories for today:</p>"

/-- Per-topic heading appended in main (line 146). -/
def topicHeading (topic : String) : String := "<h2>Today\x27s News on: " ++ topic ++ "</h2>"

/-- Literal text of the article fragment f-string (lines 160 to 165) up to
the interpolated url. -/
def fragA : String := "\n            <div style=\"margin-bottom: 25px; border-bottom: 1px solid #eee; padding-bottom: 15px;\">\n                <h3 style=\"margin: 0 0 5px 0;\"><a href=\x27"

/-- Literal text of the article fragment f-string between the interpolated
url and the interpolated title. -/
def fragB : String := "\x27 style=\x27color: #0056b3; text-decoration: none;\x27>"

/-- Literal text of the article fragment f-string between the interpolated
title and the interpolated summary. -/
def fragC : String := "</a></h3>\n                <p style=\"margin: 0; font-size: 16px;\">"

/-- Literal text of the article fragment f-string after the interpolated
summary. -/
def fragD : String := "</p>\n            </div>\n            "

/-- Embedding of the content selection in main, line 155: the Python
expression article.get(\x27content\x27) or article.get(\x27description\x27)
yields content when it is truthy and otherwise falls through to description
as it is. -/
def contentToSummarize (article : Article) : Option String :=
  if optTruthy article.content then article.content else article.description

/-- Fragment appended to email_body for one article: the loop body of main,
lines 150 to 165. -/
def renderArticle (api : String → ApiResult) (article : Article) : String :=
  let title := article.title.getD "No Title"
  let url := article.url.getD "#"
  let content_to_summarize := contentToSummarize article
  let summary := (summarize_article api content_to_summarize).1
  fragA ++ url ++ fragB ++ title ++ fragC ++ summary ++ fragD

/-- One step of the inner article loop of main: the accumulator pairs the
email body built so far with the list of inputs handed to summarize_article
so far (in call order). -/
def processArticle (api : String → ApiResult) (acc : String × List (Option String)) (article : Article) : String × List (Option String) :=
  (acc.1 ++ renderArticle api article, acc.2 ++ [contentToSummarize article])

/-- One step of the outer topic loop of main, lines 139 to 165: fetch the
articles for the topic (two per topic), continue unchanged when the list is
empty, else append the topic heading and run the article loop. -/
def processTopic (api : String → ApiResult) (fetchResp : String → HttpResponse) (acc : String × List (Option String)) (topic : String) : String × List (Option String) :=
  let articles := fetch_articles topic 2 (fetchResp topic)
  if articles.isEmpty then acc
  else articles.foldl (processArticle api) (acc.1 ++ topicHeading topic, acc.2)

/-- Composition loop of main over a topic list, starting from the fixed
header and an empty summarizer call trace. -/
def composeLoop (api : String → ApiResult) (fetchResp : String → HttpResponse) (topics : List String) : String × List (Option String) :=
  topics.foldl (processTopic api fetchResp) (header, [])

/-- Topic list hard-coded in main, line 133. -/
def topics_of_interest : List String := ["AI in medicine", "US economic outlook", "NASA Artemis program"]

/-- Observable trace of one run of main: the composed body, the inputs
passed to summarize_article in order, the send_email invocations as subject
and body pairs, and the lines printed by send_email. -/
structure RunTrace where
  body : String
  summarizeInputs : List (Option String)
  sends : List (String × String)
  sendLogs : List String
deriving Repr, DecidableEq

/-- Embedding of main from newsletter.py, lines 125 to 176. The guard on
email_body mirrors Python truthiness of a string: send only when the body is
not the empty string. -/
def main_run (api : String → ApiResult) (fetchResp : String → HttpResponse) (smtp : SmtpResult) (today_date receiver : String) : RunTrace :=
  let r := composeLoop api fetchResp topics_of_interest
  let email_subject := "Your Daily AI News Briefing - " ++ today_date
  if r.1 = "" then ⟨r.1, r.2, [], []⟩
  else ⟨r.1, r.2, [(email_subject, r.1)], send_email email_subject r.1 receiver smtp⟩

/-- Concatenation of a list of strings, in order. -/
def concatAll : List String → String
  | [] => ""
  | s :: rest => s ++ concatAll rest

/-- Concatenation of a list of lists, in order. -/
def flattenAll {α : Type} : List (List α) → List α
  | [] => []
  | l :: rest => l ++ flattenAll rest

/-- Topic whose fetch returned at least one article, relative to a fixed
HTTP oracle. -/
def activeTopic (fetchResp : String → HttpResponse) (t : String) : Bool :=
  !(fetch_articles t 2 (fetchResp t)).isEmpty

/-- HTML section contributed by one active topic: its heading followed by
one fragment per fetched article, in fetch order. -/
def renderTopic (api : String → ApiResult) (fetchResp : String → HttpResponse) (t : String) : String :=
  topicHeading t ++ concatAll ((fetch_articles t 2 (fetchResp t)).map (renderArticle api))

/-- Fragment shape as the specification describes it: the article title as
the text of a hyperlink whose target is the url, followed by the summary in
a paragraph. Written from the words of the spec, for comparison with
renderArticle which is written from the code. -/
def hyperlinkFragment (url title summary : String) : String :=
  ("\n            <div style=\"margin-bottom: 25px; border-bottom: 1px solid #eee; padding-bottom: 15px;\">\n                <h3 style=\"margin: 0 0 5px 0;\">" ++ "<a href=\x27") ++ url ++ "\x27 style=\x27color: #0056b3; text-decoration: none;\x27>" ++ title ++ ("</a>" ++ "</h3>\n                <p style=\"margin: 0; font-size: 16px;\">") ++ summary ++ "</p>\n            </div>\n            "

/-- Appending a string to a nonempty string never yields the empty string. -/
lemma append_left_ne_empty (s t : String) (h : s.data ≠ []) : s ++ t ≠ "" := by
  intro he
  apply h
  have hd : s.data ++ t.data = [] := by
    have := congrArg String.data he
    simpa [String.data_append] using this
  exact (List.append_eq_nil.mp hd).1

/-- Closed form of the inner article loop: starting from accumulator
(b, cs), it appends one fragment per article in order and records one
summarizer input per article in order. -/
lemma foldArticles_eq (api : String → ApiResult) (articles : List Article) : ∀ (b : String) (cs : List (Option String)), List.foldl (processArticle api) (b, cs) articles = (b ++ concatAll (articles.map (renderArticle api)), cs ++ articles.map contentToSummarize) := by
  induction articles with
  | nil => intro b cs; simp [concatAll]
  | cons a rest ih =>
    intro b cs
    simp only [List.foldl_cons, processArticle, List.map_cons, concatAll]
    rw [ih]
    simp [String.append_assoc, List.append_assoc]

/-- Closed form of the outer topic loop: only topics whose fetch returned a
nonempty article list contribute, each exactly one section in topic order,
and the summarizer inputs are exactly the selected contents of the fetched
articles of those topics, in order. -/
lemma foldTopics_eq (api : String → ApiResult) (fetchResp : String → HttpResponse) (topics : List String) : ∀ (b : String) (cs : List (Option String)), List.foldl (processTopic api fetchResp) (b, cs) topics = (b ++ concatAll ((topics.filter (activeTopic fetchResp)).map (renderTopic api fetchResp)), cs ++ flattenAll ((topics.filter (activeTopic fetchResp)).map (fun t => (fetch_articles t 2 (fetchResp t)).map contentToSummarize))) := by
  induction topics with
  | nil => intro b cs; simp [concatAll, flattenAll]
  | cons t rest ih =>
    intro b cs
    by_cases h : (fetch_articles t 2 (fetchResp t)).isEmpty
    · simp only [List.foldl_cons, processTopic, h, if_pos]
      rw [ih]
      simp [activeTopic, List.filter_cons, h]
    · simp only [List.foldl_cons, processTopic, h, if_neg, Bool.false_eq_true, not_false_iff]
      rw [foldArticles_eq, ih]
      simp [activeTopic, List.filter_cons, h, renderTopic, concatAll, flattenAll, String.append_assoc, List.append_assoc]

/-- Closed form of the whole composition loop. -/
lemma composeLoop_eq (api : String → ApiResult) (fetchResp : String → HttpResponse) (topics : List String) : composeLoop api fetchResp topics = (header ++ concatAll ((topics.filter (activeTopic fetchResp)).map (renderTopic api fetchResp)), flattenAll ((topics.filter (activeTopic fetchResp)).map (fun t => (fetch_articles t 2 (fetchResp t)).map contentToSummarize))) := by
  rw [composeLoop, foldTopics_eq]
  simp

/-- Every transport-level failure makes fetch_articles return the empty
list, whatever topic and article count were requested. -/
lemma fetch_transport_empty (resp : HttpResponse) (h : isTransportFailure resp) (t : String) (n : Nat) : fetch_articles t n resp = [] := by
  cases resp with
  | connectionError e => rfl
  | statusError c => rfl
  | success a => exact h.elim

/-- Code-side fragment equals the spec-side hyperlink fragment shape at the
defaulted url, defaulted title and computed summary. -/
lemma renderArticle_hyperlink (api : String → ApiResult) (article : Article) : renderArticle api article = hyperlinkFragment (article.url.getD "#") (article.title.getD "No Title") ((summarize_article api (contentToSummarize article)).1) := rfl

/-- C1: for every topic and every transport-level failure of the news-API
request (connection error or non-success HTTP status), fetch_articles
returns an empty sequence and never propagates the failure (it is a total
function into lists), and the topic loop proceeds past such a topic with
the accumulator unchanged. -/
theorem fetch_transport_failure_absorbed (topic : String) (n : Nat) (resp : HttpResponse) (h : isTransportFailure resp) : fetch_articles topic n resp = [] ∧ ∀ (api : String → ApiResult) (fetchResp : String → HttpResponse) (acc : String × List (Option String)), fetchResp topic = resp → processTopic api fetchResp acc topic = acc := by
  refine ⟨fetch_transport_empty resp h topic n, ?_⟩
  intro api fetchResp acc hf
  simp [processTopic, hf, fetch_transport_empty resp h]

/-- Witness for C1 at a concrete connection error. -/
theorem fetch_transport_failure_absorbed_witness : fetch_articles "A" 2 (HttpResponse.connectionError "boom") = [] ∧ processTopic (fun _ => ApiResult.raised "x") (fun _ => HttpResponse.connectionError "boom") (header, []) "A" = (header, []) := by
  have h := fetch_transport_failure_absorbed "A" 2 (HttpResponse.connectionError "boom") trivial
  exact ⟨h.1, h.2 _ _ _ rfl⟩

/-- C2: for every empty or absent input, summarize_article returns exactly
the fixed sentinel and issues no request to the language-model API (the
recorded payload list is empty), for every API oracle. -/
theorem summarize_empty_input_sentinel (api : String → ApiResult) (c : Option String) (h : c = none ∨ c = some "") : summarize_article api c = ("No content provided to summarize.", []) := by
  rcases h with h | h <;> subst h <;> rfl

/-- Witness for C2 at the absent input. -/
theorem summarize_empty_input_sentinel_witness : summarize_article (fun _ => ApiResult.raised "x") none = ("No content provided to summarize.", []) :=
  summarize_empty_input_sentinel _ none (Or.inl rfl)

/-- C3: for every non-empty input, an exception from the language-model API
call yields exactly the failure sentinel with no exception propagated (the
function is total), and a successful response yields the trimmed text of
its first completion choice. -/
theorem summarize_nonempty_behavior (api : String → ApiResult) (s : String) (h : s ≠ "") : (∀ e, api s = ApiResult.raised e → summarize_article api (some s) = ("Could not summarize this article.", [s])) ∧ (∀ t rest, api s = ApiResult.completed (t :: rest) → summarize_article api (some s) = (t.trim, [s])) := by
  have hne : s.isEmpty = false := by
    rcases he : s.isEmpty with _ | _
    · rfl
    · exact absurd ((String.isEmpty_iff s).mp he) h
  constructor
  · intro e he
    simp [summarize_article, hne, he]
  · intro t rest ht
    simp [summarize_article, hne, ht]

/-- Witness for C3 at a concrete input, once with a succeeding oracle and
once with a raising oracle. -/
theorem summarize_nonempty_behavior_witness : summarize_article (fun _ => ApiResult.completed ["  ok  "]) (some "x") = ("  ok  ".trim, ["x"]) ∧ summarize_article (fun _ => ApiResult.raised "down") (some "x") = ("Could not summarize this article.", ["x"]) := by
  constructor
  · exact (summarize_nonempty_behavior (fun _ => ApiResult.completed ["  ok  "]) "x" (by decide)).2 "  ok  " [] rfl
  · exact (summarize_nonempty_behavior (fun _ => ApiResult.raised "down") "x" (by decide)).1 "down" rfl

/-- C4: the value passed to the summarizer is the content field when it is
present and non-empty, else the description field (absent description gives
the empty value); and the article loop hands the summarizer exactly these
selected values, one per article, selected before the call. -/
theorem content_selection_correct (a : Article) : (optTruthy a.content = true → contentToSummarize a = a.content) ∧ (optTruthy a.content = false → contentToSummarize a = a.description) ∧ ∀ (api : String → ApiResult) (b : String) (cs : List (Option String)) (articles : List Article), (List.foldl (processArticle api) (b, cs) articles).2 = cs ++ articles.map contentToSummarize := by
  refine ⟨?_, ?_, ?_⟩
  · intro h; simp [contentToSummarize, h]
  · intro h; simp [contentToSummarize, h]
  · intro api b cs articles
    rw [foldArticles_eq]

/-- Witness for C4 at concrete articles covering both branches. -/
theorem content_selection_correct_witness : contentToSummarize ⟨none, none, some "c", some "d"⟩ = some "c" ∧ contentToSummarize ⟨none, none, some "", some "d"⟩ = some "d" := by
  constructor
  · exact (content_selection_correct ⟨none, none, some "c", some "d"⟩).1 (by decide)
  · exact (content_selection_correct ⟨none, none, some "", some "d"⟩).2.1 (by decide)

/-- C6: send_email is total (no exception escapes to the caller for any
SMTP outcome), the authentication-failure log carries the dedicated
banner, and that log differs from the log of every other transport or
protocol failure and from the success log. -/
theorem auth_failure_distinct_diagnostic (subject html_content receiver e : String) : authBanner ∈ send_email subject html_content receiver SmtpResult.authFailure ∧ send_email subject html_content receiver SmtpResult.authFailure ≠ send_email subject html_content receiver (SmtpResult.otherFailure e) ∧ send_email subject html_content receiver SmtpResult.authFailure ≠ send_email subject html_content receiver SmtpResult.ok := by
  refine ⟨?_, ?_, ?_⟩
  · simp [send_email]
  · intro h
    have hl := congrArg List.length h
    simp [send_email] at hl
  · intro h
    have hl := congrArg List.length h
    simp [send_email] at hl

/-- C5: the composed body is the header followed by exactly one section per
topic whose fetch returned at least one article, so the number of topic
headings equals the number of such topics; topics with zero articles
contribute no heading, no summarizer call (the call trace ranges over
active topics only) and no part of the body. -/
theorem sections_match_active_topics (api : String → ApiResult) (fetchResp : String → HttpResponse) (topics : List String) : (composeLoop api fetchResp topics).1 = header ++ concatAll ((topics.filter (activeTopic fetchResp)).map (renderTopic api fetchResp)) ∧ (composeLoop api fetchResp topics).2 = flattenAll ((topics.filter (activeTopic fetchResp)).map (fun t => (fetch_articles t 2 (fetchResp t)).map contentToSummarize)) ∧ ((topics.filter (activeTopic fetchResp)).map (renderTopic api fetchResp)).length = (topics.filter (activeTopic fetchResp)).length := by
  rw [composeLoop_eq]
  exact ⟨rfl, rfl, List.length_map _ _⟩

/-- C7: for every run, the composed body extends the fixed header, hence is
never the empty string, so the branch that skips sending is not taken and
send_email is invoked exactly once, with the dated subject and the body. -/
theorem run_always_sends_once (api : String → ApiResult) (fetchResp : String → HttpResponse) (smtp : SmtpResult) (today_date receiver : String) : (∃ rest, (main_run api fetchResp smtp today_date receiver).body = header ++ rest) ∧ (main_run api fetchResp smtp today_date receiver).sends = [("Your Daily AI News Briefing - " ++ today_date, (main_run api fetchResp smtp today_date receiver).body)] := by
  have h1 : (composeLoop api fetchResp topics_of_interest).1 = header ++ concatAll ((topics_of_interest.filter (activeTopic fetchResp)).map (renderTopic api fetchResp)) := by
    rw [composeLoop_eq]
  have hne : (composeLoop api fetchResp topics_of_interest).1 ≠ "" := by
    rw [h1]
    exact append_left_ne_empty _ _ (by decide)
  constructor
  · refine ⟨concatAll ((topics_of_interest.filter (activeTopic fetchResp)).map (renderTopic api fetchResp)), ?_⟩
    simp only [main_run]
    rw [if_neg hne]
    exact h1
  · simp only [main_run]
    rw [if_neg hne]

/-- C8: the composed HTML is the header followed, for each topic with a
nonempty fetch in configured order, by its heading and then one hyperlink
fragment per fetched article in fetch order, each fragment linking the
defaulted title text to the defaulted url and carrying that article's
summary. -/
theorem html_order_and_fragments (api : String → ApiResult) (fetchResp : String → HttpResponse) (topics : List String) : (composeLoop api fetchResp topics).1 = header ++ concatAll ((topics.filter (activeTopic fetchResp)).map (fun t => topicHeading t ++ concatAll ((fetch_articles t 2 (fetchResp t)).map (fun a => hyperlinkFragment (a.url.getD "#") (a.title.getD "No Title") ((summarize_article api (contentToSummarize a)).1))))) := by
  have hra : renderArticle api = fun a => hyperlinkFragment (a.url.getD "#") (a.title.getD "No Title") ((summarize_article api (contentToSummarize a)).1) :=
    funext fun a => renderArticle_hyperlink api a
  have hfun : renderTopic api fetchResp = fun t => topicHeading t ++ concatAll ((fetch_articles t 2 (fetchResp t)).map (fun a => hyperlinkFragment (a.url.getD "#") (a.title.getD "No Title") ((summarize_article api (contentToSummarize a)).1))) := by
    funext t
    rw [renderTopic, hra]
  rw [composeLoop_eq, hfun]

/-- C9: the fragment appended for an article links the title, with
placeholder No Title when the title is absent, to the url, with placeholder
number-sign target when the url is absent, followed by the summary text. -/
theorem fragment_uses_placeholders (api : String → ApiResult) (article : Article) : renderArticle api article = hyperlinkFragment (article.url.getD "#") (article.title.getD "No Title") ((summarize_article api (contentToSummarize article)).1) ∧ (article.title = none → article.title.getD "No Title" = "No Title") ∧ (article.url = none → article.url.getD "#" = "#") := by
  refine ⟨renderArticle_hyperlink api article, ?_, ?_⟩
  · intro h; rw [h]; rfl
  · intro h; rw [h]; rfl

/-- Witness for C9 at a concrete article with absent title and url. -/
theorem fragment_uses_placeholders_witness : renderArticle (fun _ => ApiResult.raised "x") ⟨none, none, none, none⟩ = hyperlinkFragment "#" "No Title" "No content provided to summarize." := by
  have h := fragment_uses_placeholders (fun _ => ApiResult.raised "x") ⟨none, none, none, none⟩
  exact h.1

/-- C10: an article whose content and description are both absent or empty
is still rendered, with the no-content sentinel as its summary text, and
the article loop appends exactly one fragment and records exactly one
summarizer input per fetched article, skipping none. -/
theorem empty_content_article_still_rendered (api : String → ApiResult) (article : Article) (hc : optTruthy article.content = false) (hd : optTruthy article.description = false) : renderArticle api article = hyperlinkFragment (article.url.getD "#") (article.title.getD "No Title") "No content provided to summarize." ∧ ∀ (b : String) (cs : List (Option String)) (articles : List Article), List.foldl (processArticle api) (b, cs) articles = (b ++ concatAll (articles.map (renderArticle api)), cs ++ articles.map contentToSummarize) := by
  constructor
  · rw [renderArticle_hyperlink]
    congr 1
    have h2s : contentToSummarize article = article.description := by
      simp [contentToSummarize, hc]
    rw [h2s]
    cases hdesc : article.description with
    | none => rfl
    | some s =>
      have hse : s.isEmpty = true := by
        rw [hdesc] at hd
        simpa [optTruthy] using hd
      simp [summarize_article, hse]
  · intro b cs articles
    exact foldArticles_eq api articles b cs

/-- Witness for C10 at a concrete article with absent content and empty
description. -/
theorem empty_content_article_still_rendered_witness : renderArticle (fun _ => ApiResult.raised "x") ⟨some "T", some "u", none, some ""⟩ = hyperlinkFragment "u" "T" "No content provided to summarize." := by
  have h := empty_content_article_still_rendered (fun _ => ApiResult.raised "x") ⟨some "T", some "u", none, some ""⟩ (by decide) (by decide)
  exact h.1

/-- Oracle that makes every LLM call raise. -/
def apiRaise : String → ApiResult := fun _ => ApiResult.raised "down"

/-- Oracle that makes every fetch succeed with zero articles. -/
def fetchNone : String → HttpResponse := fun _ => HttpResponse.success (some [])

/-- Oracle that makes every fetch succeed with one fixed article. -/
def fetchOne : String → HttpResponse := fun _ => HttpResponse.success (some [⟨some "T1", some "u1", some "c1", none⟩])

/-- Witness for C5 at concrete oracles: a run whose only topic fetches zero
articles composes a body with zero sections and records zero summarizer
calls. -/
theorem sections_match_active_topics_witness : (composeLoop apiRaise fetchNone ["A"]).1 = header ++ concatAll [] ∧ (composeLoop apiRaise fetchNone ["A"]).2 = flattenAll [] := by
  have h := sections_match_active_topics apiRaise fetchNone ["A"]
  exact ⟨h.1, h.2.1⟩

/-- Witness for C6 at concrete arguments. -/
theorem auth_failure_distinct_diagnostic_witness : authBanner ∈ send_email "s" "b" "r" SmtpResult.authFailure ∧ send_email "s" "b" "r" SmtpResult.authFailure ≠ send_email "s" "b" "r" (SmtpResult.otherFailure "net down") := by
  have h := auth_failure_distinct_diagnostic "s" "b" "r" "net down"
  exact ⟨h.1, h.2.1⟩

/-- Witness for C7 at concrete oracles on which every topic yields zero
articles: the sender is still invoked exactly once. -/
theorem run_always_sends_once_witness : (main_run apiRaise fetchNone SmtpResult.ok "June 01, 2026" "r").sends = [("Your Daily AI News Briefing - June 01, 2026", (main_run apiRaise fetchNone SmtpResult.ok "June 01, 2026" "r").body)] :=
  (run_always_sends_once apiRaise fetchNone SmtpResult.ok "June 01, 2026" "r").2

set_option maxRecDepth 10000 in
/-- Witness for C8 at concrete oracles: one topic, one article, one heading
followed by one hyperlink fragment. -/
theorem html_order_and_fragments_witness : (composeLoop apiRaise fetchOne ["A"]).1 = header ++ (topicHeading "A" ++ hyperlinkFragment "u1" "T1" "Could not summarize this article.") := by
  rw [html_order_and_fragments apiRaise fetchOne ["A"]]
  decide

end Newsletter
